import Mathlib

/-!
# CEP to weather service: a shallow embedding of `main.go`

The service validates a Brazilian postal code (CEP), resolves it to a
city through ViaCEP, geocodes the city through Nominatim, fetches the
current temperature from WeatherAPI and answers with the temperature in
Celsius, Fahrenheit and Kelvin.

Conventions of the embedding:

* a Go `string` is its sequence of bytes, `GoString := List Nat` (each
  entry a byte value); every theorem below holds for all lists, so in
  particular for all byte strings, valid UTF-8 or not;
* a Go `error` is the record `GoError` holding the text of `Error()`;
* a Go function returning `(T, error)` returns the pair of the value and
  an `Option GoError` (`none` is `nil`);
* everything outside the program (environment variables, the network,
  the library functions that are not interpreted) is a field of `World`;
* the effects of a function are the list of `Event`s it performs, in
  order; logging (`fmt.Printf`) is not an event.
-/

namespace CepWeather

set_option maxRecDepth 100000
set_option exponentiation.threshold 4096

/-! ## Go strings -/

/-- A Go string: its bytes. -/
abbrev GoString := List Nat

/-- UTF-8 encoding of one code point, as the Go compiler stores the runes
of a string constant. -/
def utf8Encode (c : Nat) : GoString :=
  if c < 0x80 then [c]
  else if c < 0x800 then [0xC0 + c / 64, 0x80 + c % 64]
  else if c < 0x10000 then [0xE0 + c / 4096, 0x80 + c / 64 % 64, 0x80 + c % 64]
  else [0xF0 + c / 262144, 0x80 + c / 4096 % 64, 0x80 + c / 64 % 64, 0x80 + c % 64]

/-- The bytes of a Go string constant. -/
def lit (s : String) : GoString :=
  s.data.flatMap (fun c => utf8Encode c.toNat)

/-- A Go `error`: the text its `Error()` method returns. -/
structure GoError where
  msg : GoString
deriving DecidableEq, Repr

/-- The method `Error()` of an error. -/
def GoError.Error (e : GoError) : GoString := e.msg

/-- The function `fmt.Errorf` applied to a constant format without verbs. -/
def Errorf (s : String) : GoError := ⟨lit s⟩

/-! ## `unicode/utf8` and `regexp` as used by the CEP functions -/

/-- The code point `utf8.RuneError`, U+FFFD. -/
def RuneError : Nat := 0xFFFD

/-- Lower end of the accept range of the second byte of an encoding that
starts with `s0` (the table `acceptRanges` of the package, reached through
`first[s0]`): 0xA0 after 0xE0, 0x90 after 0xF0, else 0x80. -/
def acceptLo (s0 : Nat) : Nat :=
  if s0 = 0xE0 then 0xA0 else if s0 = 0xF0 then 0x90 else 0x80

/-- Upper end of the accept range of the second byte: 0x9F after 0xED,
0x8F after 0xF4, else 0xBF. -/
def acceptHi (s0 : Nat) : Nat :=
  if s0 = 0xED then 0x9F else if s0 = 0xF4 then 0x8F else 0xBF

/-- The function `utf8.DecodeRuneInString`: the first rune of `s` and its
width in bytes. An empty string gives `(RuneError, 0)`, an invalid or
truncated encoding `(RuneError, 1)`. The case split on the first byte is
the table `first` of the package (ASCII below 0x80; invalid 0x80..0xC1 and
from 0xF5; two bytes 0xC2..0xDF; three bytes 0xE0..0xEF; four bytes
0xF0..0xF4); the masks and shifts of the source are written with `%`
and `*`. -/
def DecodeRuneInString (s : GoString) : Nat × Nat :=
  match s with
  | [] => (RuneError, 0)
  | s0 :: rest =>
    if s0 < 0x80 then (s0, 1)
    else if s0 < 0xC2 then (RuneError, 1)
    else if s0 ≤ 0xDF then
      match rest with
      | s1 :: _ =>
        if s1 < acceptLo s0 ∨ acceptHi s0 < s1 then (RuneError, 1)
        else (s0 % 32 * 64 + s1 % 64, 2)
      | _ => (RuneError, 1)
    else if s0 ≤ 0xEF then
      match rest with
      | s1 :: s2 :: _ =>
        if s1 < acceptLo s0 ∨ acceptHi s0 < s1 then (RuneError, 1)
        else if s2 < 0x80 ∨ 0xBF < s2 then (RuneError, 1)
        else (s0 % 16 * 4096 + s1 % 64 * 64 + s2 % 64, 3)
      | _ => (RuneError, 1)
    else if s0 ≤ 0xF4 then
      match rest with
      | s1 :: s2 :: s3 :: _ =>
        if s1 < acceptLo s0 ∨ acceptHi s0 < s1 then (RuneError, 1)
        else if s2 < 0x80 ∨ 0xBF < s2 then (RuneError, 1)
        else if s3 < 0x80 ∨ 0xBF < s3 then (RuneError, 1)
        else (s0 % 8 * 262144 + s1 % 64 * 4096 + s2 % 64 * 64 + s3 % 64, 4)
      | _ => (RuneError, 1)
    else (RuneError, 1)

/-- Whether a rune matches the character class `[^0-9]`: every rune but
the ten ASCII digits 0x30..0x39 (the class also matches a newline and the
rune `RuneError` that stands for an invalid byte). -/
def matchesNonDigit (r : Nat) : Bool := !(0x30 ≤ r && r ≤ 0x39)

/-- The loop of `re.ReplaceAllString(s, "")` for `re = [^0-9]`: the input
is read rune by rune; a rune that matches is replaced by the empty
string, the bytes of a rune that does not match are copied. One unit of
fuel is spent per rune. -/
def replaceAllNonDigitAux : Nat → GoString → GoString
  | 0, _ => []
  | _ + 1, [] => []
  | fuel + 1, s0 :: rest =>
    let rw := DecodeRuneInString (s0 :: rest)
    if matchesNonDigit rw.1 then
      replaceAllNonDigitAux fuel ((s0 :: rest).drop rw.2)
    else
      (s0 :: rest).take rw.2 ++ replaceAllNonDigitAux fuel ((s0 :: rest).drop rw.2)

/-- The expression `regexp.MustCompile("[^0-9]").ReplaceAllString(s, "")`.
A string of `n` bytes has at most `n` runes, so `n` units of fuel reach
its end. -/
def replaceAllNonDigit (s : GoString) : GoString :=
  replaceAllNonDigitAux s.length s

/-- Whether a byte is an ASCII decimal digit. -/
def isDigit (b : Nat) : Bool := 0x30 ≤ b && b ≤ 0x39

/-- The function `isValidCEP` of `main.go`. -/
def isValidCEP (cep : GoString) : Bool :=
  -- Remove caracteres não numéricos
  let cleanCEP := replaceAllNonDigit cep
  -- Verifica se tem exatamente 8 dígitos
  cleanCEP.length == 8

/-! ## `float64` -/

/-- A Go `float64`: an IEEE-754 binary64 value. A finite value is
`(-1)^neg * m * 2^e`, kept in the canonical form of the format:
`m < 2^53`, `-1074 ≤ e ≤ 971`, and `2^52 ≤ m` unless `e = -1074`
(subnormal numbers and the two zeros). NaN payloads are not told apart. -/
inductive F64 where
  | nan
  | inf (neg : Bool)
  | fin (neg : Bool) (m : Nat) (e : Int)
deriving DecidableEq, Repr

namespace F64

/-- Number of binary digits of `n`, by halving; `fuel` bounds the number
of halvings. -/
def bitLenAux : Nat → Nat → Nat
  | 0, _ => 0
  | fuel + 1, n => if n = 0 then 0 else bitLenAux fuel (n / 2) + 1

/-- Number of binary digits of `n` (0 for 0): `n` halvings always reach 0. -/
def bitLen (n : Nat) : Nat := bitLenAux n n

/-- Rounding of the exact value `(-1)^neg * n * 2^e` to binary64, to
nearest with ties to even, the rounding of every Go `float64` operation.
`s` is the number of low bits of `n` that the format cannot hold; a
result of `2^1024` or more is infinite. -/
def round (neg : Bool) (n : Nat) (e : Int) : F64 :=
  if n = 0 then fin neg 0 (-1074)
  else
    let bits : Int := (bitLen n : Int)
    let s : Int := max (bits - 53) (-1074 - e)
    if s ≤ 0 then
      if e + s > 971 then inf neg else fin neg (n * 2 ^ (-s).toNat) (e + s)
    else
      let k := s.toNat
      let q := n / 2 ^ k
      let r := n % 2 ^ k
      let half := 2 ^ (k - 1)
      let q1 := if half < r ∨ (r = half ∧ q % 2 = 1) then q + 1 else q
      let m := if q1 = 2 ^ 53 then 2 ^ 52 else q1
      let e1 := if q1 = 2 ^ 53 then e + s + 1 else e + s
      if e1 > 971 then inf neg else fin neg m e1

/-- Conversion of a natural number constant such as `0`, `32`, `273`. -/
def ofNat (n : Nat) : F64 := round false n 0

/-- Conversion of an integer constant such as `-40`. -/
def ofInt (z : Int) : F64 := round (decide (z < 0)) z.natAbs 0

/-- Conversion of the positive decimal constant `num / den` (`den > 0`),
such as `1.8 = 18/10`: the quotient is computed to more than 60 bits, a
sticky bit records a remainder, and the result is rounded once. -/
def ofRat (num den : Nat) : F64 :=
  let k := 64 + bitLen den - bitLen num
  let q := num * 2 ^ k / den
  let sticky := if num * 2 ^ k % den = 0 then 0 else 1
  round false (2 * q + sticky) (-((k : Int) + 1))

/-- The product `x * y` of two `float64` values, rounded once. -/
def mul : F64 → F64 → F64
  | nan, _ => nan
  | _, nan => nan
  | inf a, inf b => inf (a != b)
  | inf a, fin b m _ => if m = 0 then nan else inf (a != b)
  | fin a m _, inf b => if m = 0 then nan else inf (a != b)
  | fin a m e, fin b n f => round (a != b) (m * n) (e + f)

/-- The sum `x + y` of two `float64` values, rounded once; an exact zero
sum is `+0` unless both operands are negative zeros. -/
def add : F64 → F64 → F64
  | nan, _ => nan
  | _, nan => nan
  | inf a, inf b => if a = b then inf a else nan
  | inf a, fin _ _ _ => inf a
  | fin _ _ _, inf b => inf b
  | fin a m e, fin b n f =>
    let g := min e f
    let x : Int := (if a then -1 else 1) * ((m * 2 ^ (e - g).toNat : Nat) : Int)
    let y : Int := (if b then -1 else 1) * ((n * 2 ^ (f - g).toNat : Nat) : Int)
    let z := x + y
    if z = 0 then fin (a && b) 0 (-1074)
    else round (decide (z < 0)) z.natAbs g

/-- The fused multiply-add `x*y + z`, rounded once: what a compiler that
fuses the two operations (as the Go specification allows, and as is done
on arm64) computes for `x*y + z`. The exact product is handed to `add`,
which does not need its operands in canonical form. -/
def fma : F64 → F64 → F64 → F64
  | fin a m e, fin b n f, z => add (fin (a != b) (m * n) (e + f)) z
  | x, y, z => add (mul x y) z

/-- The comparison `x == y` of Go: false when an operand is NaN, true
between the two zeros, else identity of the canonical forms. -/
def eq : F64 → F64 → Bool
  | nan, _ => false
  | _, nan => false
  | inf a, inf b => a == b
  | fin a m e, fin b n f => (m == 0 && n == 0) || (a == b && m == n && e == f)
  | _, _ => false

/-- Whether a value is finite: neither NaN nor an infinity. These are the
`float64` values that `json.Marshal` accepts. -/
def isFinite : F64 → Bool
  | fin _ _ _ => true
  | _ => false

/-- The integer a finite value stands for, when it is an integer at all
(its exponent is not positive and divides out, or is positive). -/
def toInt? : F64 → Option Int
  | fin neg m e =>
    let z : Int := if neg then -(m : Int) else (m : Int)
    if 0 ≤ e then some (z * 2 ^ e.toNat)
    else if m % 2 ^ (-e).toNat = 0 then some (z / 2 ^ (-e).toNat) else none
  | _ => none

end F64

/-! ## The temperature conversions -/

/-- The function `celsiusToFahrenheit` of `main.go`: `celsius*1.8 + 32`,
the product rounded before the sum as on amd64. -/
def celsiusToFahrenheit (celsius : F64) : F64 :=
  F64.add (F64.mul celsius (F64.ofRat 18 10)) (F64.ofNat 32)

/-- The function `celsiusToKelvin` of `main.go`: `celsius + 273`. -/
def celsiusToKelvin (celsius : F64) : F64 :=
  F64.add celsius (F64.ofNat 273)

/-! ## `net/url` -/

/-- The function `shouldEscape(c, encodeQueryComponent)` of `net/url`:
only ASCII letters, digits and `-`, `_`, `.`, `~` are kept as they are. -/
def shouldEscape (c : Nat) : Bool :=
  if (0x61 ≤ c ∧ c ≤ 0x7A) ∨ (0x41 ≤ c ∧ c ≤ 0x5A) ∨ (0x30 ≤ c ∧ c ≤ 0x39) then false
  else if c = 0x2D ∨ c = 0x5F ∨ c = 0x2E ∨ c = 0x7E then false
  else true

/-- The digit `"0123456789ABCDEF"[n]`. -/
def upperhex (n : Nat) : Nat := if n < 10 then 0x30 + n else 0x41 + (n - 10)

/-- The function `url.QueryEscape`: a space becomes `+`, every other
escaped byte `%XX`. -/
def QueryEscape (s : GoString) : GoString :=
  s.flatMap (fun c =>
    if shouldEscape c then
      if c = 0x20 then [0x2B] else [0x25, upperhex (c / 16), upperhex (c % 16)]
    else [c])

/-! ## `encoding/json` -/

/-- A JSON text that passed the syntax check of `json.Unmarshal`, as the
decoder walks it: strings and member names are unquoted, a number keeps
its literal. -/
inductive JSON where
  | null
  | bool (b : Bool)
  | num (text : GoString)
  | str (s : GoString)
  | arr (items : List JSON)
  | obj (members : List (GoString × JSON))

/-- The case folding under which the decoder matches a member name with a
field name: ASCII letters go to upper case, and the two non-ASCII runes
that fold to an ASCII letter, U+017F (bytes C5 BF) and U+212A (bytes
E2 84 AA), go to `S` and `K`. Other bytes are kept, which is enough to
compare with the ASCII names of the structs below. -/
def foldName : GoString → GoString
  | 0xC5 :: 0xBF :: t => 0x53 :: foldName t
  | 0xE2 :: 0x84 :: 0xAA :: t => 0x4B :: foldName t
  | c :: t => (if 0x61 ≤ c ∧ c ≤ 0x7A then c - 0x20 else c) :: foldName t
  | [] => []

/-- Whether the member name `key` selects the field tagged `name`. -/
def keyIs (key : GoString) (name : String) : Bool :=
  foldName key == foldName (lit name)

/-- Decoding of a JSON value into a `string` field holding `old`: a
string is stored, `null` changes nothing, anything else is an
`UnmarshalTypeError` (`none`). -/
def storeString (v : JSON) (old : GoString) : Option GoString :=
  match v with
  | .str s => some s
  | .null => some old
  | _ => none

/-- Decoding of a JSON value into a `bool` field holding `old`. -/
def storeBool (v : JSON) (old : Bool) : Option Bool :=
  match v with
  | .bool b => some b
  | .null => some old
  | _ => none

/-- Decoding of a JSON value into a `float64` field holding `old`: the
literal of a number goes through `strconv.ParseFloat`, whose failure is
an `UnmarshalTypeError`. -/
def storeFloat (parseFloat : GoString → Except GoError F64) (v : JSON) (old : F64) :
    Option F64 :=
  match v with
  | .num text =>
    match parseFloat text with
    | .ok x => some x
    | .error _ => none
  | .null => some old
  | _ => none

/-- Decoding of the members of a JSON object, in order, into a struct:
`set` decodes one member into the field its name selects. -/
def decodeMembers {T : Type} (set : T → GoString → JSON → Option T) :
    List (GoString × JSON) → T → Option T
  | [], r => some r
  | (k, v) :: ms, r =>
    match set r k v with
    | some r1 => decodeMembers set ms r1
    | none => none

/-- Decoding of a JSON value into a struct holding `old`: an object is
decoded member by member into the fields already there, `null` changes
nothing, anything else is an `UnmarshalTypeError`. -/
def decodeStruct {T : Type} (set : T → GoString → JSON → Option T) (v : JSON) (old : T) :
    Option T :=
  match v with
  | .obj ms => decodeMembers set ms old
  | .null => some old
  | _ => none

/-! ## The types of `main.go` -/

/-- The struct `ViaCEPResponse`. -/
structure ViaCEPResponse where
  Cep : GoString
  Logradouro : GoString
  Complemento : GoString
  Bairro : GoString
  Localidade : GoString
  Uf : GoString
  Ibge : GoString
  Gia : GoString
  Ddd : GoString
  Siafi : GoString
  Erro : Bool

/-- The struct `NominatimResponse`. -/
structure NominatimResponse where
  Lat : GoString
  Lon : GoString

/-- The anonymous struct of the field `Location` of `WeatherResponse`. -/
structure WeatherLocation where
  Name : GoString
deriving DecidableEq

/-- The anonymous struct of the field `Current` of `WeatherResponse`. -/
structure WeatherCurrent where
  TempC : F64
deriving DecidableEq

/-- The struct `WeatherResponse`. -/
structure WeatherResponse where
  Location : WeatherLocation
  Current : WeatherCurrent
deriving DecidableEq

/-- The struct `TemperatureResponse`. -/
structure TemperatureResponse where
  TempC : F64
  TempF : F64
  TempK : F64
deriving DecidableEq

/-- Zero value of `ViaCEPResponse`, the state of `var viaCEPResp`. -/
def ViaCEPResponse.zero : ViaCEPResponse :=
  ⟨[], [], [], [], [], [], [], [], [], [], false⟩

/-- Zero value of `NominatimResponse`. -/
def NominatimResponse.zero : NominatimResponse := ⟨[], []⟩

/-- Zero value of `WeatherResponse`, the state of `var weatherResp`. -/
def WeatherResponse.zero : WeatherResponse := ⟨⟨[]⟩, ⟨F64.ofNat 0⟩⟩

/-- Decoding of one member into `ViaCEPResponse`, by its `json` tags. A
member whose name selects no field is skipped. -/
def ViaCEPResponse.set (r : ViaCEPResponse) (key : GoString) (v : JSON) :
    Option ViaCEPResponse :=
  if keyIs key "cep" then (storeString v r.Cep).map (fun s => { r with Cep := s })
  else if keyIs key "logradouro" then
    (storeString v r.Logradouro).map (fun s => { r with Logradouro := s })
  else if keyIs key "complemento" then
    (storeString v r.Complemento).map (fun s => { r with Complemento := s })
  else if keyIs key "bairro" then (storeString v r.Bairro).map (fun s => { r with Bairro := s })
  else if keyIs key "localidade" then
    (storeString v r.Localidade).map (fun s => { r with Localidade := s })
  else if keyIs key "uf" then (storeString v r.Uf).map (fun s => { r with Uf := s })
  else if keyIs key "ibge" then (storeString v r.Ibge).map (fun s => { r with Ibge := s })
  else if keyIs key "gia" then (storeString v r.Gia).map (fun s => { r with Gia := s })
  else if keyIs key "ddd" then (storeString v r.Ddd).map (fun s => { r with Ddd := s })
  else if keyIs key "siafi" then (storeString v r.Siafi).map (fun s => { r with Siafi := s })
  else if keyIs key "erro" then (storeBool v r.Erro).map (fun b => { r with Erro := b })
  else some r

/-- Decoding of one member into `NominatimResponse`. -/
def NominatimResponse.set (r : NominatimResponse) (key : GoString) (v : JSON) :
    Option NominatimResponse :=
  if keyIs key "lat" then (storeString v r.Lat).map (fun s => { r with Lat := s })
  else if keyIs key "lon" then (storeString v r.Lon).map (fun s => { r with Lon := s })
  else some r

/-- Decoding of a JSON value into `[]NominatimResponse`, element by element. -/
def decodeNominatimElems : List JSON → Option (List NominatimResponse)
  | [] => some []
  | item :: rest =>
    match decodeStruct NominatimResponse.set item NominatimResponse.zero,
      decodeNominatimElems rest with
    | some x, some xs => some (x :: xs)
    | _, _ => none

/-- Decoding of a JSON value into the slice `var nominatimResp
[]NominatimResponse`: an array gives one element per item, `null` the nil
slice, anything else an `UnmarshalTypeError`. -/
def decodeNominatim (v : JSON) (_old : List NominatimResponse) :
    Option (List NominatimResponse) :=
  match v with
  | .arr items => decodeNominatimElems items
  | .null => some []
  | _ => none

/-- Decoding of one member into the struct of `Location`. -/
def WeatherLocation.set (r : WeatherLocation) (key : GoString) (v : JSON) :
    Option WeatherLocation :=
  if keyIs key "name" then (storeString v r.Name).map (fun s => { r with Name := s })
  else some r

/-- Decoding of one member into the struct of `Current`. -/
def WeatherCurrent.set (parseFloat : GoString → Except GoError F64) (r : WeatherCurrent)
    (key : GoString) (v : JSON) : Option WeatherCurrent :=
  if keyIs key "temp_c" then
    (storeFloat parseFloat v r.TempC).map (fun x => { r with TempC := x })
  else some r

/-- Decoding of one member into `WeatherResponse`. -/
def WeatherResponse.set (parseFloat : GoString → Except GoError F64) (r : WeatherResponse)
    (key : GoString) (v : JSON) : Option WeatherResponse :=
  if keyIs key "location" then
    (decodeStruct WeatherLocation.set v r.Location).map (fun l => { r with Location := l })
  else if keyIs key "current" then
    (decodeStruct (WeatherCurrent.set parseFloat) v r.Current).map
      (fun c => { r with Current := c })
  else some r

/-! ## The world outside the program -/

/-- An `*http.Response` as the program uses it: its status, which the
program never reads, and what `io.ReadAll(resp.Body)` returns. -/
structure HttpResponse where
  StatusCode : Nat
  Body : Except GoError GoString

/-- Everything the program reads from outside: the environment, the
network, and the library functions that are not interpreted here. -/
structure World where
  /-- The function `os.Getenv`; an unset variable reads as the empty string. -/
  Getenv : GoString → GoString
  /-- The function `http.Get`, by URL. -/
  httpGet : GoString → Except GoError HttpResponse
  /-- The syntax check of `json.Unmarshal`: the value a text stands for,
  or the `SyntaxError`. -/
  jsonValue : GoString → Except GoError JSON
  /-- The `UnmarshalTypeError` that `json.Unmarshal` returns for a text
  whose decoding met a value of the wrong type. -/
  typeError : GoString → GoError
  /-- The function `strconv.ParseFloat(s, 64)`. -/
  ParseFloat : GoString → Except GoError F64
  /-- The verb `%f` of `fmt.Sprintf`. -/
  formatFloat : F64 → GoString

/-- The function `json.Unmarshal(data, &v)` for a variable `v` holding
`zero`, `decode` being the decoding into the type of `v`. -/
def Unmarshal {T : Type} (w : World) (data : GoString) (decode : JSON → T → Option T)
    (zero : T) : Except GoError T :=
  match w.jsonValue data with
  | .error err => .error err
  | .ok v =>
    match decode v zero with
    | some r => .ok r
    | none => .error (w.typeError data)

/-- The value handed to `c.JSON`, and the body of the response it writes:
a `gin.H` map of strings, a `TemperatureResponse`, or nothing at all. -/
inductive Body where
  | H (fields : List (GoString × GoString))
  | temperature (r : TemperatureResponse)
  | empty
deriving DecidableEq

/-- What the program does that can be seen from outside, and the calls of
the handler to its three helpers. `JSON code body` is the response that a
call of `c.JSON` writes: its status and the body sent. -/
inductive Event where
  | httpGet (url : GoString)
  | getLocationFromCEP (cep : GoString)
  | getCoordinates (location : GoString)
  | getTemperatureFromCoordinates (lat lon : F64) (location : GoString)
  | JSON (code : Nat) (body : Body)
deriving DecidableEq

/-- Whether `json.Marshal` encodes a value: a map of strings always, a
`TemperatureResponse` when its three numbers are finite (NaN and the
infinities are an `UnsupportedValueError`). -/
def Marshalable : Body → Bool
  | Body.temperature r => r.TempC.isFinite && r.TempF.isFinite && r.TempK.isFinite
  | _ => true

/-- The method `c.JSON(code, obj)` of `gin.Context`: the status is set and
`obj` is encoded with `json.Marshal` and written; when the encoding fails
the error is only recorded in the context and nothing is written, so the
response has the status and an empty body. -/
def Context.JSON (code : Nat) (obj : Body) : Event :=
  if Marshalable obj then Event.JSON code obj else Event.JSON code Body.empty

/-! ## The functions of `main.go` -/

/-- The function `getLocationFromCEP` of `main.go`, with the requests it
makes. -/
def getLocationFromCEP (w : World) (cep : GoString) :
    (GoString × Option GoError) × List Event :=
  -- Remove caracteres não numéricos
  let cleanCEP := replaceAllNonDigit cep
  let url := lit "https://viacep.com.br/ws/" ++ cleanCEP ++ lit "/json/"
  (match w.httpGet url with
   | .error err => ([], some err)
   | .ok resp =>
     match resp.Body with
     | .error err => ([], some err)
     | .ok body =>
       match Unmarshal w body (decodeStruct ViaCEPResponse.set) ViaCEPResponse.zero with
       | .error err => ([], some err)
       | .ok viaCEPResp =>
         if viaCEPResp.Erro then ([], some (Errorf "CEP não encontrado"))
         -- Retorna cidade, estado
         else (viaCEPResp.Localidade ++ lit "," ++ viaCEPResp.Uf, none),
   [Event.httpGet url])

/-- The function `getCoordinates` of `main.go`, with the requests it
makes. -/
def getCoordinates (w : World) (location : GoString) :
    (F64 × F64 × Option GoError) × List Event :=
  let locationEncoded := QueryEscape location
  let url := lit "https://nominatim.openstreetmap.org/search?q=" ++ locationEncoded ++
    lit ",Brazil&format=json&limit=1"
  (match w.httpGet url with
   | .error err => (F64.ofNat 0, F64.ofNat 0, some err)
   | .ok resp =>
     match resp.Body with
     | .error err => (F64.ofNat 0, F64.ofNat 0, some err)
     | .ok body =>
       match Unmarshal w body decodeNominatim [] with
       | .error err => (F64.ofNat 0, F64.ofNat 0, some err)
       | .ok nominatimResp =>
         match nominatimResp with
         | [] => (F64.ofNat 0, F64.ofNat 0, some (Errorf "coordenadas não encontradas"))
         | first :: _ =>
           match w.ParseFloat first.Lat with
           | .error err => (F64.ofNat 0, F64.ofNat 0, some err)
           | .ok lat =>
             match w.ParseFloat first.Lon with
             | .error err => (F64.ofNat 0, F64.ofNat 0, some err)
             | .ok lon => (lat, lon, none),
   [Event.httpGet url])

/-- The function `getTemperatureFromCoordinates` of `main.go`, with the
requests it makes. -/
def getTemperatureFromCoordinates (w : World) (lat lon : F64) (_location : GoString) :
    (F64 × Option GoError) × List Event :=
  let apiKey := w.Getenv (lit "WEATHER_API")
  if apiKey = [] then
    ((F64.ofNat 0, some (Errorf "WEATHER_API environment variable not set")), [])
  else
    let url := lit "https://api.weatherapi.com/v1/current.json?key=" ++ apiKey ++ lit "&q=" ++
      w.formatFloat lat ++ lit "," ++ w.formatFloat lon ++ lit "&aqi=no"
    (match w.httpGet url with
     | .error err => (F64.ofNat 0, some err)
     | .ok resp =>
       match resp.Body with
       | .error err => (F64.ofNat 0, some err)
       | .ok body =>
         match Unmarshal w body (decodeStruct (WeatherResponse.set w.ParseFloat))
             WeatherResponse.zero with
         | .error err => (F64.ofNat 0, some err)
         | .ok weatherResp => (weatherResp.Current.TempC, none),
     [Event.httpGet url])

/-- The handler `getWeather` of `main.go` for the path parameter `cep`:
the events of one request, ending with the one call of `c.JSON`. -/
def getWeather (w : World) (cep : GoString) : List Event :=
  -- Validar formato do CEP (8 dígitos)
  if !isValidCEP cep then
    [Context.JSON 422 (Body.H [(lit "error", lit "invalid zipcode")])]
  else
    -- Consultar CEP
    let r1 := getLocationFromCEP w cep
    let location := r1.1.1
    match r1.1.2 with
    | some _ =>
      Event.getLocationFromCEP cep :: r1.2 ++
        [Context.JSON 404 (Body.H [(lit "error", lit "can not find zipcode")])]
    | none =>
      -- Obter coordenadas; um erro só é registrado
      let r2 := getCoordinates w location
      let lat := r2.1.1
      let lon := r2.1.2.1
      let r3 := getTemperatureFromCoordinates w lat lon location
      let temperatureFromCoordinates := r3.1.1
      match r3.1.2 with
      | some err =>
        Event.getLocationFromCEP cep :: r1.2 ++ Event.getCoordinates location :: r2.2 ++
          Event.getTemperatureFromCoordinates lat lon location :: r3.2 ++
          [Context.JSON 500
            (Body.H [(lit "error", lit "error getting temperature, " ++ err.Error)])]
      | none =>
        -- Converter temperaturas
        let tempC := temperatureFromCoordinates
        let tempF := celsiusToFahrenheit tempC
        let tempK := celsiusToKelvin tempC
        let response : TemperatureResponse := { TempC := tempC, TempF := tempF, TempK := tempK }
        Event.getLocationFromCEP cep :: r1.2 ++ Event.getCoordinates location :: r2.2 ++
          Event.getTemperatureFromCoordinates lat lon location :: r3.2 ++
          [Context.JSON 200 (Body.temperature response)]

/-- The calls of `c.JSON` in a list of events: status and body of each
response written. -/
def responses : List Event → List (Nat × Body)
  | [] => []
  | Event.JSON code body :: rest => (code, body) :: responses rest
  | _ :: rest => responses rest


/-! ## Sample worlds

Concrete worlds on which the theorems below are instantiated: the postal
directory knows the CEP 01310100 and answers `erro` for 99999999, and the
answers of the geocoder and of the weather service are parameters. -/

/-- The latitude -23.5. -/
def sampleLat : F64 := F64.round true 47 (-1)

/-- The longitude -46.5. -/
def sampleLon : F64 := F64.round true 93 (-1)

/-- The JSON texts of the sample worlds and the values they stand for. -/
def sampleJSON (text : GoString) : Except GoError JSON :=
  if text = lit "\x7b\"cep\":\"01310-100\",\"localidade\":\"São Paulo\",\"uf\":\"SP\"\x7d" then
    .ok (.obj [(lit "cep", .str (lit "01310-100")), (lit "localidade", .str (lit "São Paulo")),
      (lit "uf", .str (lit "SP"))])
  else if text = lit "\x7b\"erro\":true\x7d" then .ok (.obj [(lit "erro", .bool true)])
  else if text = lit "[\x7b\"lat\":\"-23.5\",\"lon\":\"-46.5\"\x7d]" then
    .ok (.arr [.obj [(lit "lat", .str (lit "-23.5")), (lit "lon", .str (lit "-46.5"))]])
  else if text = lit "[\x7b\"lat\":\"-23.5\",\"lon\":\"west\"\x7d]" then
    .ok (.arr [.obj [(lit "lat", .str (lit "-23.5")), (lit "lon", .str (lit "west"))]])
  else if text = lit "[]" then .ok (.arr [])
  else if text = lit "\x7b\"current\":\x7b\"temp_c\":25\x7d\x7d" then
    .ok (.obj [(lit "current", .obj [(lit "temp_c", .num (lit "25"))])])
  else if text = lit "\x7b\"current\":\x7b\"temp_c\":1e308\x7d\x7d" then
    .ok (.obj [(lit "current", .obj [(lit "temp_c", .num (lit "1e308"))])])
  else if text = lit "\x7b\"current\":\x7b\"TEMP_C\":25\x7d\x7d" then
    .ok (.obj [(lit "current", .obj [(lit "TEMP_C", .num (lit "25"))])])
  else if text = lit "\x7b\"error\":\x7b\"code\":2006\x7d\x7d" then
    .ok (.obj [(lit "error", .obj [(lit "code", .num (lit "2006"))])])
  else if text = lit "\x7b\"location\":\"x\"\x7d" then
    .ok (.obj [(lit "location", .str (lit "x"))])
  else .error ⟨lit "invalid character"⟩

/-- A world with the credential `apiKey`, in which the geocoder answers
`geoBody` and the weather service answers `weatherBody` with the status
`weatherStatus`. -/
def sampleWorld (apiKey geoBody : GoString) (weatherStatus : Nat) (weatherBody : GoString) :
    World where
  Getenv := fun name => if name = lit "WEATHER_API" then apiKey else []
  httpGet := fun url =>
    if url = lit "https://viacep.com.br/ws/01310100/json/" then
      .ok ⟨200, .ok (lit
        "\x7b\"cep\":\"01310-100\",\"localidade\":\"São Paulo\",\"uf\":\"SP\"\x7d")⟩
    else if url = lit "https://viacep.com.br/ws/99999999/json/" then
      .ok ⟨200, .ok (lit "\x7b\"erro\":true\x7d")⟩
    else if url = lit ("https://nominatim.openstreetmap.org/search?q=S%C3%A3o+Paulo%2CSP" ++
        ",Brazil&format=json&limit=1") then
      .ok ⟨200, .ok geoBody⟩
    else if url = lit "https://api.weatherapi.com/v1/current.json?key=" ++ apiKey ++
        lit "&q=-23.500000,-46.500000&aqi=no" then
      .ok ⟨weatherStatus, .ok weatherBody⟩
    else if url = lit "https://api.weatherapi.com/v1/current.json?key=" ++ apiKey ++
        lit "&q=0.000000,0.000000&aqi=no" then
      .ok ⟨weatherStatus, .ok weatherBody⟩
    else .error ⟨lit "no such host"⟩
  jsonValue := sampleJSON
  typeError := fun _ => ⟨lit "json: cannot unmarshal"⟩
  ParseFloat := fun s =>
    if s = lit "25" then .ok (F64.ofNat 25)
    else if s = lit "2006" then .ok (F64.ofNat 2006)
    else if s = lit "1e308" then .ok (F64.ofNat (10 ^ 308))
    else if s = lit "-23.5" then .ok sampleLat
    else if s = lit "-46.5" then .ok sampleLon
    else .error ⟨lit "invalid syntax"⟩
  formatFloat := fun x =>
    if x = sampleLat then lit "-23.500000"
    else if x = sampleLon then lit "-46.500000"
    else if x = F64.ofNat 0 then lit "0.000000"
    else lit "NaN"

/-! # Theorems -/

/-! ## Lemmas on the digit filter -/

theorem decodeRune_ascii (s0 : Nat) (rest : GoString) (h : s0 < 0x80) :
    DecodeRuneInString (s0 :: rest) = (s0, 1) := by
  simp [DecodeRuneInString, h]

theorem isDigit_false_of_ge (b : Nat) (h : 0x80 ≤ b) : isDigit b = false := by
  simp [isDigit]; omega

theorem matchesNonDigit_of_ge (r : Nat) (h : 0x80 ≤ r) : matchesNonDigit r = true := by
  simp [matchesNonDigit]; omega

theorem acceptLo_ge (s0 : Nat) : 0x80 ≤ acceptLo s0 := by
  unfold acceptLo; split_ifs <;> omega

theorem acceptHi_le (s0 : Nat) : acceptHi s0 ≤ 0xBF := by
  unfold acceptHi; split_ifs <;> omega

theorem acceptLo_E0 : acceptLo 0xE0 = 0xA0 := by decide

theorem acceptLo_F0 : acceptLo 0xF0 = 0x90 := by decide

/-- The error result of the decoder satisfies the bounds of
`decodeRune_nonascii`. -/
theorem runeError_bounds (s0 : Nat) (rest : GoString) (h : 0x80 ≤ s0) :
    0x80 ≤ ((RuneError, 1) : Nat × Nat).1 ∧ 1 ≤ ((RuneError, 1) : Nat × Nat).2 ∧
    ∀ b ∈ (s0 :: rest).take ((RuneError, 1) : Nat × Nat).2, 0x80 ≤ b := by
  refine ⟨by simp [RuneError], by simp, ?_⟩
  intro b hb
  simp at hb
  omega

/-- What `DecodeRuneInString` can return on a string whose first byte is
not ASCII: a rune of at least 0x80 and a width `w` of at least 1, the
first `w` bytes of the string all being at least 0x80. -/
theorem decodeRune_nonascii (s0 : Nat) (rest : GoString) (h : 0x80 ≤ s0) :
    0x80 ≤ (DecodeRuneInString (s0 :: rest)).1 ∧
    1 ≤ (DecodeRuneInString (s0 :: rest)).2 ∧
    ∀ b ∈ (s0 :: rest).take (DecodeRuneInString (s0 :: rest)).2, 0x80 ≤ b := by
  have hne : ¬ s0 < 0x80 := by omega
  have hlo := acceptLo_ge s0
  have hhi := acceptHi_le s0
  have hE := acceptLo_E0
  have hF := acceptLo_F0
  unfold DecodeRuneInString
  simp only [hne, if_false]
  by_cases h1 : s0 < 0xC2
  · rw [if_pos h1]; exact runeError_bounds s0 rest h
  rw [if_neg h1]
  by_cases h2 : s0 ≤ 0xDF
  · rw [if_pos h2]
    rcases rest with _ | ⟨s1, t⟩
    · exact runeError_bounds s0 _ h
    · simp only []
      by_cases c1 : s1 < acceptLo s0 ∨ acceptHi s0 < s1
      · rw [if_pos c1]; exact runeError_bounds s0 _ h
      · rw [if_neg c1]
        refine ⟨by simp only []; omega, by simp, ?_⟩
        intro b hb
        simp at hb
        omega
  rw [if_neg h2]
  by_cases h3 : s0 ≤ 0xEF
  · rw [if_pos h3]
    rcases rest with _ | ⟨s1, _ | ⟨s2, t⟩⟩
    · exact runeError_bounds s0 _ h
    · exact runeError_bounds s0 _ h
    · simp only []
      by_cases c1 : s1 < acceptLo s0 ∨ acceptHi s0 < s1
      · rw [if_pos c1]; exact runeError_bounds s0 _ h
      rw [if_neg c1]
      by_cases c2 : s2 < 0x80 ∨ 0xBF < s2
      · rw [if_pos c2]; exact runeError_bounds s0 _ h
      rw [if_neg c2]
      refine ⟨?_, by simp, ?_⟩
      · simp only []
        by_cases e : s0 = 0xE0
        · subst e; omega
        · omega
      · intro b hb
        simp at hb
        omega
  rw [if_neg h3]
  by_cases h4 : s0 ≤ 0xF4
  · rw [if_pos h4]
    rcases rest with _ | ⟨s1, _ | ⟨s2, _ | ⟨s3, t⟩⟩⟩
    · exact runeError_bounds s0 _ h
    · exact runeError_bounds s0 _ h
    · exact runeError_bounds s0 _ h
    · simp only []
      by_cases c1 : s1 < acceptLo s0 ∨ acceptHi s0 < s1
      · rw [if_pos c1]; exact runeError_bounds s0 _ h
      rw [if_neg c1]
      by_cases c2 : s2 < 0x80 ∨ 0xBF < s2
      · rw [if_pos c2]; exact runeError_bounds s0 _ h
      rw [if_neg c2]
      by_cases c3 : s3 < 0x80 ∨ 0xBF < s3
      · rw [if_pos c3]; exact runeError_bounds s0 _ h
      rw [if_neg c3]
      refine ⟨?_, by simp, ?_⟩
      · simp only []
        by_cases e : s0 = 0xF0
        · subst e; omega
        · omega
      · intro b hb
        simp at hb
        omega
  rw [if_neg h4]
  exact runeError_bounds s0 rest h

/-- With enough fuel the rune loop keeps exactly the ASCII digit bytes. -/
theorem replaceAllNonDigitAux_eq_filter (fuel : Nat) :
    ∀ s : GoString, s.length ≤ fuel → replaceAllNonDigitAux fuel s = s.filter isDigit := by
  induction fuel with
  | zero =>
    intro s hs
    have : s = [] := List.length_eq_zero.mp (Nat.le_zero.mp hs)
    subst this
    rfl
  | succ fuel ih =>
    intro s hs
    rcases s with _ | ⟨s0, rest⟩
    · rfl
    · simp only [replaceAllNonDigitAux]
      by_cases ha : s0 < 0x80
      · rw [decodeRune_ascii s0 rest ha]
        have hlen : rest.length ≤ fuel := by simpa using hs
        simp only [List.drop_succ_cons, List.drop_zero, List.take_succ_cons, List.take_zero]
        rw [ih rest hlen, List.filter_cons]
        by_cases hd : isDigit s0 = true
        · have : matchesNonDigit s0 = false := by
            simp [matchesNonDigit, isDigit] at hd ⊢; omega
          simp [this, hd]
        · have : matchesNonDigit s0 = true := by
            simp [matchesNonDigit, isDigit] at hd ⊢; omega
          simp [this, hd]
      · obtain ⟨hr, hw, hb⟩ := decodeRune_nonascii s0 rest (by omega)
        rw [if_pos (matchesNonDigit_of_ge _ hr)]
        have hlen : ((s0 :: rest).drop (DecodeRuneInString (s0 :: rest)).2).length ≤ fuel := by
          rw [List.length_drop]
          simp only [List.length_cons] at hs ⊢
          omega
        rw [ih _ hlen]
        conv_rhs => rw [← List.take_append_drop (DecodeRuneInString (s0 :: rest)).2 (s0 :: rest)]
        rw [List.filter_append]
        have : ((s0 :: rest).take (DecodeRuneInString (s0 :: rest)).2).filter isDigit = [] := by
          rw [List.filter_eq_nil_iff]
          intro b hbm
          simp [isDigit_false_of_ge b (hb b hbm)]
        rw [this, List.nil_append]

/-- The regular-expression replacement keeps exactly the ASCII digit bytes
of its input, in order. -/
theorem replaceAllNonDigit_eq_filter (s : GoString) :
    replaceAllNonDigit s = s.filter isDigit :=
  replaceAllNonDigitAux_eq_filter s.length s (Nat.le_refl _)


theorem isValidCEP_eq (s : GoString) :
    isValidCEP s = decide ((s.filter isDigit).length = 8) := by
  simp only [isValidCEP, replaceAllNonDigit_eq_filter]
  cases h : ((List.filter isDigit s).length == 8) <;> simp_all

theorem isValidCEP_true_iff (s : GoString) :
    isValidCEP s = true ↔ s.countP isDigit = 8 := by
  rw [isValidCEP_eq, List.countP_eq_length_filter]
  simp

theorem isValidCEP_false_iff (s : GoString) :
    isValidCEP s = false ↔ s.countP isDigit ≠ 8 := by
  rw [isValidCEP_eq, List.countP_eq_length_filter]
  simp

/-! ## The four ways through the handler -/

theorem getLocationFromCEP_events (w : World) (cep : GoString) :
    (getLocationFromCEP w cep).2 =
      [Event.httpGet (lit "https://viacep.com.br/ws/" ++ cep.filter isDigit ++ lit "/json/")] := by
  simp [getLocationFromCEP, replaceAllNonDigit_eq_filter]

theorem Context.JSON_H (code : Nat) (fields : List (GoString × GoString)) :
    Context.JSON code (Body.H fields) = Event.JSON code (Body.H fields) := rfl

theorem Context.JSON_temperature (code : Nat) (r : TemperatureResponse) :
    Context.JSON code (Body.temperature r) =
      Event.JSON code
        (if r.TempC.isFinite = true ∧ r.TempF.isFinite = true ∧ r.TempK.isFinite = true then
          Body.temperature r
        else Body.empty) := by
  cases h1 : r.TempC.isFinite <;> cases h2 : r.TempF.isFinite <;>
    cases h3 : r.TempK.isFinite <;> simp [Context.JSON, Marshalable, h1, h2, h3]

theorem getWeather_of_invalid (w : World) (cep : GoString) (hv : isValidCEP cep = false) :
    getWeather w cep = [Event.JSON 422 (Body.H [(lit "error", lit "invalid zipcode")])] := by
  simp [getWeather, hv, Context.JSON_H]

theorem getWeather_of_location_error (w : World) (cep : GoString) (e : GoError)
    (hv : isValidCEP cep = true) (h1 : (getLocationFromCEP w cep).1.2 = some e) :
    getWeather w cep =
      Event.getLocationFromCEP cep :: (getLocationFromCEP w cep).2 ++
        [Event.JSON 404 (Body.H [(lit "error", lit "can not find zipcode")])] := by
  simp [getWeather, hv, h1, Context.JSON_H]

theorem getWeather_of_temperature_error (w : World) (cep location : GoString) (e : GoError)
    (hv : isValidCEP cep = true) (h1 : (getLocationFromCEP w cep).1 = (location, none))
    (h3 : (getTemperatureFromCoordinates w (getCoordinates w location).1.1
      (getCoordinates w location).1.2.1 location).1.2 = some e) :
    getWeather w cep =
      Event.getLocationFromCEP cep :: (getLocationFromCEP w cep).2 ++
        Event.getCoordinates location :: (getCoordinates w location).2 ++
        Event.getTemperatureFromCoordinates (getCoordinates w location).1.1
          (getCoordinates w location).1.2.1 location ::
        (getTemperatureFromCoordinates w (getCoordinates w location).1.1
          (getCoordinates w location).1.2.1 location).2 ++
        [Event.JSON 500
          (Body.H [(lit "error", lit "error getting temperature, " ++ e.Error)])] := by
  simp only [getWeather, hv, h1, h3, Context.JSON_H]
  simp

theorem getWeather_of_success (w : World) (cep location : GoString)
    (hv : isValidCEP cep = true) (h1 : (getLocationFromCEP w cep).1 = (location, none))
    (h3 : (getTemperatureFromCoordinates w (getCoordinates w location).1.1
      (getCoordinates w location).1.2.1 location).1.2 = none) :
    getWeather w cep =
      Event.getLocationFromCEP cep :: (getLocationFromCEP w cep).2 ++
        Event.getCoordinates location :: (getCoordinates w location).2 ++
        Event.getTemperatureFromCoordinates (getCoordinates w location).1.1
          (getCoordinates w location).1.2.1 location ::
        (getTemperatureFromCoordinates w (getCoordinates w location).1.1
          (getCoordinates w location).1.2.1 location).2 ++
        [Context.JSON 200 (Body.temperature
          { TempC := (getTemperatureFromCoordinates w (getCoordinates w location).1.1
              (getCoordinates w location).1.2.1 location).1.1,
            TempF := celsiusToFahrenheit (getTemperatureFromCoordinates w
              (getCoordinates w location).1.1 (getCoordinates w location).1.2.1 location).1.1,
            TempK := celsiusToKelvin (getTemperatureFromCoordinates w
              (getCoordinates w location).1.1 (getCoordinates w location).1.2.1
              location).1.1 })] := by
  simp only [getWeather, hv, h1, h3]
  simp

theorem responses_append (xs ys : List Event) :
    responses (xs ++ ys) = responses xs ++ responses ys := by
  induction xs with
  | nil => rfl
  | cons x xs ih => cases x <;> simp [responses, ih]

theorem getLocationFromCEP_responses (w : World) (cep : GoString) :
    responses (getLocationFromCEP w cep).2 = [] := by
  rw [getLocationFromCEP_events]; rfl

theorem getCoordinates_responses (w : World) (location : GoString) :
    responses (getCoordinates w location).2 = [] := by
  simp [getCoordinates, responses]

theorem getTemperatureFromCoordinates_responses (w : World) (lat lon : F64)
    (location : GoString) :
    responses (getTemperatureFromCoordinates w lat lon location).2 = [] := by
  unfold getTemperatureFromCoordinates
  simp only
  split <;> simp [responses]


theorem mem_responses (xs : List Event) (code : Nat) (body : Body) :
    Event.JSON code body ∈ xs ↔ (code, body) ∈ responses xs := by
  induction xs with
  | nil => simp [responses]
  | cons x xs ih => cases x <;> simp [responses, ih]

theorem responses_of_location_error (w : World) (cep : GoString) (e : GoError)
    (hv : isValidCEP cep = true) (h1 : (getLocationFromCEP w cep).1.2 = some e) :
    responses (getWeather w cep) =
      [(404, Body.H [(lit "error", lit "can not find zipcode")])] := by
  rw [getWeather_of_location_error w cep e hv h1]
  simp [responses_append, responses, getLocationFromCEP_responses]

theorem responses_of_temperature_error (w : World) (cep location : GoString) (e : GoError)
    (hv : isValidCEP cep = true) (h1 : (getLocationFromCEP w cep).1 = (location, none))
    (h3 : (getTemperatureFromCoordinates w (getCoordinates w location).1.1
      (getCoordinates w location).1.2.1 location).1.2 = some e) :
    responses (getWeather w cep) =
      [(500, Body.H [(lit "error", lit "error getting temperature, " ++ e.Error)])] := by
  rw [getWeather_of_temperature_error w cep location e hv h1 h3]
  simp [responses_append, responses, getLocationFromCEP_responses, getCoordinates_responses,
    getTemperatureFromCoordinates_responses]

theorem responses_of_success (w : World) (cep location : GoString) (c : F64)
    (hv : isValidCEP cep = true) (h1 : (getLocationFromCEP w cep).1 = (location, none))
    (h3 : (getTemperatureFromCoordinates w (getCoordinates w location).1.1
      (getCoordinates w location).1.2.1 location).1 = (c, none)) :
    responses (getWeather w cep) =
      [(200,
        if c.isFinite = true ∧ (celsiusToFahrenheit c).isFinite = true ∧
            (celsiusToKelvin c).isFinite = true then
          Body.temperature
            { TempC := c, TempF := celsiusToFahrenheit c, TempK := celsiusToKelvin c }
        else Body.empty)] := by
  have h3a : (getTemperatureFromCoordinates w (getCoordinates w location).1.1
      (getCoordinates w location).1.2.1 location).1.2 = none := by rw [h3]
  rw [getWeather_of_success w cep location hv h1 h3a, h3, Context.JSON_temperature]
  simp [responses_append, responses, getLocationFromCEP_responses, getCoordinates_responses,
    getTemperatureFromCoordinates_responses]

theorem getTemperatureFromCoordinates_no_key (w : World) (lat lon : F64) (location : GoString)
    (hk : w.Getenv (lit "WEATHER_API") = []) :
    getTemperatureFromCoordinates w lat lon location =
      ((F64.ofNat 0, some (Errorf "WEATHER_API environment variable not set")), []) := by
  simp [getTemperatureFromCoordinates, hk]

/-! ## Lemmas on `float64` -/

/-- With at least `n` units of fuel the halving loop returns the number
of binary digits of `n`. -/
theorem F64.bitLenAux_spec (fuel : Nat) :
    ∀ n : Nat, n ≤ fuel → n ≠ 0 →
      1 ≤ F64.bitLenAux fuel n ∧ 2 ^ (F64.bitLenAux fuel n - 1) ≤ n ∧
        n < 2 ^ F64.bitLenAux fuel n := by
  induction fuel with
  | zero => intro n hn h0; omega
  | succ fuel ih =>
    intro n hn h0
    simp only [F64.bitLenAux, h0, if_false]
    by_cases h1 : n / 2 = 0
    · have hn1 : n = 1 := by omega
      subst hn1
      cases fuel <;> simp [F64.bitLenAux]
    · obtain ⟨hk, hlo, hhi⟩ := ih (n / 2) (by omega) h1
      refine ⟨by omega, ?_, ?_⟩
      · have h2 : F64.bitLenAux fuel (n / 2) + 1 - 1 = (F64.bitLenAux fuel (n / 2) - 1) + 1 := by
          omega
        rw [h2, pow_succ]
        omega
      · rw [pow_succ]
        omega

/-- The number of binary digits: `2^(bitLen n - 1) ≤ n < 2^(bitLen n)`. -/
theorem F64.bitLen_spec (n : Nat) (h0 : n ≠ 0) :
    2 ^ (F64.bitLen n - 1) ≤ n ∧ n < 2 ^ F64.bitLen n :=
  (F64.bitLenAux_spec n n (Nat.le_refl n) h0).2

theorem F64.round_ne_nan (neg : Bool) (n : Nat) (e : Int) : F64.round neg n e ≠ F64.nan := by
  unfold F64.round
  simp only
  split_ifs <;> simp

theorem F64.eq_self (x : F64) (h : x ≠ F64.nan) : F64.eq x x = true := by
  cases x <;> simp_all [F64.eq]

theorem F64.ofRat_18_10 : F64.ofRat 18 10 = F64.fin false 8106479329266893 (-52) := by
  decide

theorem F64.ofNat_32 : F64.ofNat 32 = F64.fin false 4503599627370496 (-47) := by
  decide

theorem F64.ofNat_273 : F64.ofNat 273 = F64.fin false 4802666790125568 (-44) := by
  decide

theorem F64.add_fin_ne_nan (x : F64) (b : Bool) (n : Nat) (f : Int) (h : x ≠ F64.nan) :
    F64.add x (F64.fin b n f) ≠ F64.nan := by
  cases x with
  | nan => exact absurd rfl h
  | inf a => simp [F64.add]
  | fin a m e =>
    simp only [F64.add]
    split_ifs
    all_goals first | exact F64.round_ne_nan _ _ _ | simp

theorem celsiusToFahrenheit_ne_nan (c : F64) (h : c ≠ F64.nan) :
    celsiusToFahrenheit c ≠ F64.nan := by
  unfold celsiusToFahrenheit
  rw [F64.ofNat_32]
  apply F64.add_fin_ne_nan
  rw [F64.ofRat_18_10]
  cases c with
  | nan => exact absurd rfl h
  | inf a => simp [F64.mul]
  | fin a m e => exact F64.round_ne_nan _ _ _

theorem celsiusToKelvin_ne_nan (c : F64) (h : c ≠ F64.nan) :
    celsiusToKelvin c ≠ F64.nan := by
  unfold celsiusToKelvin
  rw [F64.ofNat_273]
  exact F64.add_fin_ne_nan c _ _ _ h

/-- The responses of the handler, in each of its four ways. -/
theorem responses_getWeather_cases (w : World) (cep : GoString) :
    responses (getWeather w cep) =
        [(422, Body.H [(lit "error", lit "invalid zipcode")])] ∨
    responses (getWeather w cep) =
        [(404, Body.H [(lit "error", lit "can not find zipcode")])] ∨
    (∃ e : GoError, responses (getWeather w cep) =
        [(500, Body.H [(lit "error", lit "error getting temperature, " ++ e.Error)])]) ∨
    (∃ c : F64, responses (getWeather w cep) =
        [(200,
          if c.isFinite = true ∧ (celsiusToFahrenheit c).isFinite = true ∧
              (celsiusToKelvin c).isFinite = true then
            Body.temperature
              { TempC := c, TempF := celsiusToFahrenheit c, TempK := celsiusToKelvin c }
          else Body.empty)]) := by
  cases hv : isValidCEP cep with
  | false =>
    left
    rw [getWeather_of_invalid w cep hv]
    rfl
  | true =>
    right
    rcases h1 : (getLocationFromCEP w cep).1 with ⟨location, _ | e⟩
    · right
      rcases h3 : (getTemperatureFromCoordinates w (getCoordinates w location).1.1
          (getCoordinates w location).1.2.1 location).1 with ⟨c, _ | e⟩
      · exact Or.inr ⟨c, responses_of_success w cep location c hv h1 h3⟩
      · exact Or.inl ⟨e, responses_of_temperature_error w cep location e hv h1 (by rw [h3])⟩
    · left
      exact responses_of_location_error w cep e hv (by rw [h1])

theorem F64.ne_nan_of_isFinite (x : F64) (h : x.isFinite = true) : x ≠ F64.nan := by
  cases x <;> simp_all [F64.isFinite]

theorem getLocationFromCEP_congr (w : World) (a b : GoString)
    (h : a.filter isDigit = b.filter isDigit) :
    getLocationFromCEP w a = getLocationFromCEP w b := by
  simp only [getLocationFromCEP, replaceAllNonDigit_eq_filter, h]

/-- The handler after the validation starts by calling the resolver. -/
theorem getWeather_of_valid (w : World) (cep : GoString) (hv : isValidCEP cep = true) :
    getWeather w cep = Event.getLocationFromCEP cep :: (getWeather w cep).tail := by
  rcases h1 : (getLocationFromCEP w cep).1 with ⟨location, _ | e⟩
  · cases h3 : (getTemperatureFromCoordinates w (getCoordinates w location).1.1
        (getCoordinates w location).1.2.1 location).1.2 with
    | none => rw [getWeather_of_success w cep location hv h1 h3]; rfl
    | some e => rw [getWeather_of_temperature_error w cep location e hv h1 h3]; rfl
  · rw [getWeather_of_location_error w cep e hv (by rw [h1])]; rfl

/-- Everything in the handler after the record of the call of the
resolver depends on `cep` through `getLocationFromCEP` only. -/
theorem getWeather_tail_congr (w : World) (a b : GoString) (ha : isValidCEP a = true)
    (hb : isValidCEP b = true) (heq : getLocationFromCEP w a = getLocationFromCEP w b) :
    (getWeather w a).tail = (getWeather w b).tail := by
  rcases h1 : (getLocationFromCEP w a).1 with ⟨location, _ | e⟩
  · cases h3 : (getTemperatureFromCoordinates w (getCoordinates w location).1.1
        (getCoordinates w location).1.2.1 location).1.2 with
    | none =>
      rw [getWeather_of_success w a location ha h1 h3,
        getWeather_of_success w b location hb (by rw [← heq, h1]) h3, heq]
      rfl
    | some e =>
      rw [getWeather_of_temperature_error w a location e ha h1 h3,
        getWeather_of_temperature_error w b location e hb (by rw [← heq, h1]) h3, heq]
      rfl
  · rw [getWeather_of_location_error w a e ha (by rw [h1]),
      getWeather_of_location_error w b e hb (by rw [← heq, h1]), heq]
    rfl

theorem getCoordinates_events (w : World) (location : GoString) :
    (getCoordinates w location).2 =
      [Event.httpGet (lit "https://nominatim.openstreetmap.org/search?q=" ++
        QueryEscape location ++ lit ",Brazil&format=json&limit=1")] := by
  simp [getCoordinates]

/-- An error of `getCoordinates` comes with the coordinates 0 and 0. -/
theorem getCoordinates_error_zero (w : World) (location : GoString) (e : GoError)
    (h : (getCoordinates w location).1.2.2 = some e) :
    (getCoordinates w location).1.1 = F64.ofNat 0 ∧
    (getCoordinates w location).1.2.1 = F64.ofNat 0 := by
  simp only [getCoordinates] at h ⊢
  split at h
  · exact ⟨rfl, rfl⟩
  · split at h
    · exact ⟨rfl, rfl⟩
    · split at h
      · exact ⟨rfl, rfl⟩
      · split at h
        · exact ⟨rfl, rfl⟩
        · split at h
          · exact ⟨rfl, rfl⟩
          · split at h
            · exact ⟨rfl, rfl⟩
            · simp at h

/-- The handler once the location is resolved: the geocoder is called,
then the weather fetcher with the coordinates the geocoder returned, and
the response is the one the result of the weather fetcher selects. -/
theorem getWeather_of_location_ok (w : World) (cep location : GoString)
    (hv : isValidCEP cep = true) (h1 : (getLocationFromCEP w cep).1 = (location, none)) :
    getWeather w cep =
      [Event.getLocationFromCEP cep,
       Event.httpGet (lit "https://viacep.com.br/ws/" ++ cep.filter isDigit ++ lit "/json/"),
       Event.getCoordinates location,
       Event.httpGet (lit "https://nominatim.openstreetmap.org/search?q=" ++
         QueryEscape location ++ lit ",Brazil&format=json&limit=1"),
       Event.getTemperatureFromCoordinates (getCoordinates w location).1.1
         (getCoordinates w location).1.2.1 location] ++
      (getTemperatureFromCoordinates w (getCoordinates w location).1.1
        (getCoordinates w location).1.2.1 location).2 ++
      [match (getTemperatureFromCoordinates w (getCoordinates w location).1.1
          (getCoordinates w location).1.2.1 location).1 with
        | (_, some err) =>
          Event.JSON 500 (Body.H [(lit "error", lit "error getting temperature, " ++ err.Error)])
        | (c, none) =>
          Context.JSON 200 (Body.temperature
            { TempC := c, TempF := celsiusToFahrenheit c, TempK := celsiusToKelvin c })] := by
  rcases h3 : (getTemperatureFromCoordinates w (getCoordinates w location).1.1
      (getCoordinates w location).1.2.1 location).1 with ⟨c, _ | e⟩
  · have h3a : (getTemperatureFromCoordinates w (getCoordinates w location).1.1
        (getCoordinates w location).1.2.1 location).1.2 = none := by rw [h3]
    rw [getWeather_of_success w cep location hv h1 h3a, getLocationFromCEP_events,
      getCoordinates_events, h3]
    rfl
  · have h3a : (getTemperatureFromCoordinates w (getCoordinates w location).1.1
        (getCoordinates w location).1.2.1 location).1.2 = some e := by rw [h3]
    rw [getWeather_of_temperature_error w cep location e hv h1 h3a, getLocationFromCEP_events,
      getCoordinates_events]
    rfl

/-! ## Lemmas on the decoding of the weather body -/

/-- The four sample values of `celsiusToFahrenheit` do not depend on
whether the compiler fuses the multiplication with the addition. -/
theorem celsiusToFahrenheit_fused_values :
    ∀ z ∈ [(0 : Int), 100, -40, 25],
      F64.fma (F64.ofInt z) (F64.ofRat 18 10) (F64.ofNat 32) =
        celsiusToFahrenheit (F64.ofInt z) := by
  decide

/-- Two bodies on the edge of the decoding. The object
`{"location":"x"}` is not of the shape of `WeatherResponse`:
`json.Unmarshal` returns a type error and the handler answers 500. The
object `{"current":{"TEMP_C":25}}` gives the decoder, which matches
member names without regard to case, a value for `current.temp_c`: the
fetch returns 25. -/
theorem getTemperatureFromCoordinates_decoding_examples :
    (getTemperatureFromCoordinates
      (sampleWorld (lit "test_key") (lit "[\x7b\"lat\":\"-23.5\",\"lon\":\"-46.5\"\x7d]") 200
        (lit "\x7b\"location\":\"x\"\x7d"))
      sampleLat sampleLon (lit "São Paulo,SP")).1 =
      (F64.ofNat 0, some ⟨lit "json: cannot unmarshal"⟩) ∧
    responses
      (getWeather
        (sampleWorld (lit "test_key") (lit "[\x7b\"lat\":\"-23.5\",\"lon\":\"-46.5\"\x7d]") 200
          (lit "\x7b\"location\":\"x\"\x7d"))
        (lit "01310100")) =
      [(500, Body.H
        [(lit "error", lit "error getting temperature, json: cannot unmarshal")])] ∧
    (getTemperatureFromCoordinates
      (sampleWorld (lit "test_key") (lit "[\x7b\"lat\":\"-23.5\",\"lon\":\"-46.5\"\x7d]") 200
        (lit "\x7b\"current\":\x7b\"TEMP_C\":25\x7d\x7d"))
      sampleLat sampleLon (lit "São Paulo,SP")).1 = (F64.ofNat 25, none) := by
  refine ⟨by decide, by decide, by decide⟩

/-! ## The claims -/

/-- C1: for every string `s`, `isValidCEP s` is true exactly when `s` has
exactly 8 ASCII decimal digits among its bytes; inserting or removing a
byte that is not an ASCII digit, anywhere, never changes the result; and
`isValidCEP ""` is false. -/
theorem isValidCEP_iff_eight_digits (s : GoString) :
    (isValidCEP s = true ↔ s.countP isDigit = 8) ∧
    (∀ (a b : GoString) (c : Nat), isDigit c = false →
      isValidCEP (a ++ c :: b) = isValidCEP (a ++ b)) ∧
    isValidCEP (lit "") = false := by
  refine ⟨isValidCEP_true_iff s, ?_, by decide⟩
  intro a b c hc
  rw [isValidCEP_eq, isValidCEP_eq]
  simp [List.filter_cons, hc]

/-- C2: when the digits of `cep` are not 8 in number, `isValidCEP` rejects
it and the handler does one thing only, whatever the world is: it writes
the status 422 with the body `{"error": "invalid zipcode"}`. No helper is
called and no request is made. -/
theorem getWeather_invalid_cep (w : World) (cep : GoString) (h : cep.countP isDigit ≠ 8) :
    isValidCEP cep = false ∧
    getWeather w cep = [Event.JSON 422 (Body.H [(lit "error", lit "invalid zipcode")])] := by
  have hv := (isValidCEP_false_iff cep).mpr h
  exact ⟨hv, getWeather_of_invalid w cep hv⟩

/-- C2 at the path `/123`, in a world where every service would answer. -/
theorem getWeather_invalid_cep_witness :
    (lit "123").countP isDigit ≠ 8 ∧
    isValidCEP (lit "123") = false ∧
    getWeather
      (sampleWorld (lit "test_key") (lit "[]") 200
        (lit "\x7b\"current\":\x7b\"temp_c\":25\x7d\x7d"))
      (lit "123") =
      [Event.JSON 422 (Body.H [(lit "error", lit "invalid zipcode")])] :=
  ⟨by decide, getWeather_invalid_cep _ (lit "123") (by decide)⟩

/-- C3: for a `cep` that passes `isValidCEP`, `getLocationFromCEP` returns
an error exactly when the request to
`https://viacep.com.br/ws/<digits>/json/` fails, or the body cannot be
read, or `json.Unmarshal` fails on it, or the decoded `erro` is true;
otherwise it returns `<localidade>,<uf>` of the decoded body; and whenever
it returns an error the handler calls the resolver, which makes its one
request, and then only writes the status 404 with the body
`{"error": "can not find zipcode"}`: neither the geocoder nor the weather
fetcher is called. -/
theorem getWeather_location_failure (w : World) (cep : GoString)
    (hv : isValidCEP cep = true) :
    ((getLocationFromCEP w cep).1.2 ≠ none ↔
      (∃ e, w.httpGet (lit "https://viacep.com.br/ws/" ++ cep.filter isDigit ++ lit "/json/")
        = .error e) ∨
      (∃ resp e,
        w.httpGet (lit "https://viacep.com.br/ws/" ++ cep.filter isDigit ++ lit "/json/")
          = .ok resp ∧ resp.Body = .error e) ∨
      (∃ resp body e,
        w.httpGet (lit "https://viacep.com.br/ws/" ++ cep.filter isDigit ++ lit "/json/")
          = .ok resp ∧ resp.Body = .ok body ∧
        Unmarshal w body (decodeStruct ViaCEPResponse.set) ViaCEPResponse.zero = .error e) ∨
      (∃ resp body v,
        w.httpGet (lit "https://viacep.com.br/ws/" ++ cep.filter isDigit ++ lit "/json/")
          = .ok resp ∧ resp.Body = .ok body ∧
        Unmarshal w body (decodeStruct ViaCEPResponse.set) ViaCEPResponse.zero = .ok v ∧
        v.Erro = true)) ∧
    (∀ resp body v,
      w.httpGet (lit "https://viacep.com.br/ws/" ++ cep.filter isDigit ++ lit "/json/")
        = .ok resp → resp.Body = .ok body →
      Unmarshal w body (decodeStruct ViaCEPResponse.set) ViaCEPResponse.zero = .ok v →
      v.Erro = false →
      (getLocationFromCEP w cep).1 = (v.Localidade ++ lit "," ++ v.Uf, none)) ∧
    ((getLocationFromCEP w cep).1.2 ≠ none →
      getWeather w cep =
        [Event.getLocationFromCEP cep,
         Event.httpGet (lit "https://viacep.com.br/ws/" ++ cep.filter isDigit ++ lit "/json/"),
         Event.JSON 404 (Body.H [(lit "error", lit "can not find zipcode")])]) := by
  refine ⟨?_, ?_, ?_⟩
  · simp only [getLocationFromCEP, replaceAllNonDigit_eq_filter]
    cases hg : w.httpGet
        (lit "https://viacep.com.br/ws/" ++ cep.filter isDigit ++ lit "/json/") with
    | error e => simp
    | ok resp =>
      cases hb : resp.Body with
      | error e => simp [hb]
      | ok body =>
        cases hu : Unmarshal w body (decodeStruct ViaCEPResponse.set) ViaCEPResponse.zero with
        | error e => simp [hb, hu]
        | ok v => cases he : v.Erro <;> simp [hb, hu, he]
  · intro resp body v hg hb hu he
    simp only [getLocationFromCEP, replaceAllNonDigit_eq_filter, hg, hb, hu, he]
    simp
  · intro hne
    obtain ⟨e, he⟩ := Option.ne_none_iff_exists'.mp hne
    rw [getWeather_of_location_error w cep e hv he, getLocationFromCEP_events]
    rfl

/-- C3 at the path `/99999999`, for which the postal directory answers
`{"erro": true}`. -/
theorem getWeather_location_failure_witness :
    isValidCEP (lit "99999999") = true ∧
    (getLocationFromCEP
      (sampleWorld (lit "test_key") (lit "[]") 200
        (lit "\x7b\"current\":\x7b\"temp_c\":25\x7d\x7d"))
      (lit "99999999")).1.2 ≠ none ∧
    getWeather
      (sampleWorld (lit "test_key") (lit "[]") 200
        (lit "\x7b\"current\":\x7b\"temp_c\":25\x7d\x7d"))
      (lit "99999999") =
      [Event.getLocationFromCEP (lit "99999999"),
       Event.httpGet (lit "https://viacep.com.br/ws/99999999/json/"),
       Event.JSON 404 (Body.H [(lit "error", lit "can not find zipcode")])] :=
  ⟨by decide, by decide,
    (getWeather_location_failure _ (lit "99999999") (by decide)).2.2 (by decide)⟩

/-- C4: for a `cep` that passes validation and whose location resolves,
when `getTemperatureFromCoordinates`, called with whatever coordinates
`getCoordinates` returned (its error is not looked at), returns the error
`e`, the handler writes one response, the status 500 with the body
`{"error": "error getting temperature, " + e.Error()}`, and no 200. -/
theorem getWeather_temperature_failure (w : World) (cep location : GoString) (e : GoError)
    (hv : isValidCEP cep = true) (hloc : (getLocationFromCEP w cep).1 = (location, none))
    (ht : (getTemperatureFromCoordinates w (getCoordinates w location).1.1
      (getCoordinates w location).1.2.1 location).1.2 = some e) :
    responses (getWeather w cep) =
      [(500, Body.H [(lit "error", lit "error getting temperature, " ++ e.Error)])] ∧
    (∀ body, Event.JSON 200 body ∉ getWeather w cep) ∧
    (∀ geoErr, (getCoordinates w location).1.2.2 = geoErr →
      getWeather w cep =
        Event.getLocationFromCEP cep :: (getLocationFromCEP w cep).2 ++
          Event.getCoordinates location :: (getCoordinates w location).2 ++
          Event.getTemperatureFromCoordinates (getCoordinates w location).1.1
            (getCoordinates w location).1.2.1 location ::
          (getTemperatureFromCoordinates w (getCoordinates w location).1.1
            (getCoordinates w location).1.2.1 location).2 ++
          [Event.JSON 500
            (Body.H [(lit "error", lit "error getting temperature, " ++ e.Error)])]) := by
  have hr := responses_of_temperature_error w cep location e hv hloc ht
  refine ⟨hr, ?_, ?_⟩
  · intro body hmem
    rw [mem_responses, hr] at hmem
    simp at hmem
  · intro _ _
    exact getWeather_of_temperature_error w cep location e hv hloc ht

/-- C4 at the path `/01310100`, the geocoder finding nothing and the
weather service answering a text that is not JSON. -/
theorem getWeather_temperature_failure_witness :
    responses
      (getWeather (sampleWorld (lit "test_key") (lit "[]") 200 (lit "<html>"))
        (lit "01310100")) =
      [(500, Body.H [(lit "error", lit "error getting temperature, invalid character")])] ∧
    (getCoordinates (sampleWorld (lit "test_key") (lit "[]") 200 (lit "<html>"))
        (lit "São Paulo,SP")).1.2.2 ≠ none :=
  ⟨(getWeather_temperature_failure
      (sampleWorld (lit "test_key") (lit "[]") 200 (lit "<html>"))
      (lit "01310100") (lit "São Paulo,SP") ⟨lit "invalid character"⟩
      (by decide) (by decide) (by decide)).1,
    by decide⟩

/-- C5: when `WEATHER_API` is unset or empty (`os.Getenv` returns `""`),
`getTemperatureFromCoordinates` returns, for every latitude, longitude and
location, the error `WEATHER_API environment variable not set` and makes
no request; so for every valid `cep` whose location resolves the handler
writes the status 500 with the body `{"error": "error getting
temperature, WEATHER_API environment variable not set"}`. -/
theorem getWeather_without_credential (w : World) (hk : w.Getenv (lit "WEATHER_API") = []) :
    (∀ lat lon location,
      getTemperatureFromCoordinates w lat lon location =
        ((F64.ofNat 0, some (Errorf "WEATHER_API environment variable not set")), [])) ∧
    (∀ cep location, isValidCEP cep = true →
      (getLocationFromCEP w cep).1 = (location, none) →
      responses (getWeather w cep) =
        [(500, Body.H [(lit "error",
          lit "error getting temperature, " ++
            lit "WEATHER_API environment variable not set")])] ∧
      ∀ url, Event.httpGet url ∈ getWeather w cep →
        url = lit "https://viacep.com.br/ws/" ++ cep.filter isDigit ++ lit "/json/" ∨
        url = lit "https://nominatim.openstreetmap.org/search?q=" ++ QueryEscape location ++
          lit ",Brazil&format=json&limit=1") := by
  refine ⟨fun lat lon location => getTemperatureFromCoordinates_no_key w lat lon location hk, ?_⟩
  intro cep location hv hloc
  have ht : (getTemperatureFromCoordinates w (getCoordinates w location).1.1
      (getCoordinates w location).1.2.1 location).1.2 =
      some (Errorf "WEATHER_API environment variable not set") := by
    rw [getTemperatureFromCoordinates_no_key w _ _ location hk]
  refine ⟨responses_of_temperature_error w cep location _ hv hloc ht, ?_⟩
  intro url hmem
  rw [getWeather_of_temperature_error w cep location _ hv hloc ht, getLocationFromCEP_events,
    getTemperatureFromCoordinates_no_key w _ _ location hk] at hmem
  simp [getCoordinates] at hmem
  rcases hmem with h | h
  · left; simpa using h
  · right; simpa using h

/-- C5 at the path `/01310100` with no credential in the environment. -/
theorem getWeather_without_credential_witness :
    responses
      (getWeather (sampleWorld [] (lit "[]") 200 (lit "")) (lit "01310100")) =
      [(500, Body.H [(lit "error",
        lit "error getting temperature, " ++
          lit "WEATHER_API environment variable not set")])] :=
  ((getWeather_without_credential (sampleWorld [] (lit "[]") 200 (lit "")) (by decide)).2
    (lit "01310100") (lit "São Paulo,SP") (by decide) (by decide)).1

/-- C6, amended: every response of the handler that carries temperatures
has the status 200, its `temp_F` is `temp_C*1.8 + 32` and its `temp_K` is
`temp_C + 273` as `float64` computes them, also under the `==` of Go;
and a request that reaches a weather fetch returning, with no error, a
Celsius value `c` such that `c`, `c*1.8 + 32` and `c + 273` are all
finite is answered with the status 200 and the body of `temp_C = c`
unchanged, `temp_F = c*1.8 + 32` and `temp_K = c + 273`. -/
theorem getWeather_success_body (w : World) (cep : GoString) :
    (∀ code r, Event.JSON code (Body.temperature r) ∈ getWeather w cep →
      code = 200 ∧
      r.TempF = F64.add (F64.mul r.TempC (F64.ofRat 18 10)) (F64.ofNat 32) ∧
      r.TempK = F64.add r.TempC (F64.ofNat 273) ∧
      F64.eq r.TempF (F64.add (F64.mul r.TempC (F64.ofRat 18 10)) (F64.ofNat 32)) = true ∧
      F64.eq r.TempK (F64.add r.TempC (F64.ofNat 273)) = true) ∧
    (∀ location c, isValidCEP cep = true →
      (getLocationFromCEP w cep).1 = (location, none) →
      (getTemperatureFromCoordinates w (getCoordinates w location).1.1
        (getCoordinates w location).1.2.1 location).1 = (c, none) →
      c.isFinite = true →
      (F64.add (F64.mul c (F64.ofRat 18 10)) (F64.ofNat 32)).isFinite = true →
      (F64.add c (F64.ofNat 273)).isFinite = true →
      responses (getWeather w cep) =
        [(200, Body.temperature
          { TempC := c,
            TempF := F64.add (F64.mul c (F64.ofRat 18 10)) (F64.ofNat 32),
            TempK := F64.add c (F64.ofNat 273) })]) := by
  constructor
  · intro code r hmem
    rw [mem_responses] at hmem
    rcases responses_getWeather_cases w cep with h | h | ⟨e, h⟩ | ⟨c, h⟩
    · rw [h] at hmem; simp at hmem
    · rw [h] at hmem; simp at hmem
    · rw [h] at hmem; simp at hmem
    · rw [h] at hmem
      by_cases hfin : c.isFinite = true ∧ (celsiusToFahrenheit c).isFinite = true ∧
          (celsiusToKelvin c).isFinite = true
      · rw [if_pos hfin] at hmem
        simp only [List.mem_singleton, Prod.mk.injEq, Body.temperature.injEq] at hmem
        obtain ⟨hc, hr⟩ := hmem
        rw [hr]
        exact ⟨hc, rfl, rfl, F64.eq_self _ (F64.ne_nan_of_isFinite _ hfin.2.1),
          F64.eq_self _ (F64.ne_nan_of_isFinite _ hfin.2.2)⟩
      · rw [if_neg hfin] at hmem
        simp at hmem
  · intro location c hv hloc ht hc hf hk
    rw [responses_of_success w cep location c hv hloc ht]
    have hfin : c.isFinite = true ∧ (celsiusToFahrenheit c).isFinite = true ∧
        (celsiusToKelvin c).isFinite = true := ⟨hc, hf, hk⟩
    rw [if_pos hfin]
    rfl

/-- C6, amended, at the path `/01310-100`, the weather service reporting
25 degrees Celsius: the answer is 200 with 25, 77 and 298. -/
theorem getWeather_success_body_witness :
    responses
      (getWeather
        (sampleWorld (lit "test_key") (lit "[\x7b\"lat\":\"-23.5\",\"lon\":\"-46.5\"\x7d]") 200
          (lit "\x7b\"current\":\x7b\"temp_c\":25\x7d\x7d"))
        (lit "01310-100")) =
      [(200, Body.temperature
        { TempC := F64.ofInt 25, TempF := F64.ofInt 77, TempK := F64.ofInt 298 })] :=
  ((getWeather_success_body
      (sampleWorld (lit "test_key") (lit "[\x7b\"lat\":\"-23.5\",\"lon\":\"-46.5\"\x7d]") 200
        (lit "\x7b\"current\":\x7b\"temp_c\":25\x7d\x7d"))
      (lit "01310-100")).2 (lit "São Paulo,SP") (F64.ofInt 25)
    (by decide) (by decide) (by decide) (by decide) (by decide) (by decide)).trans (by decide)

/-- C6 as stated fails: the weather service answers
`{"current":{"temp_c":1e308}}`, the fetch succeeds with the Celsius value
1e308, `1e308*1.8` overflows to `+Inf`, `json.Marshal` refuses it inside
`c.JSON`, and the response is the status 200 with an empty body, not a
body with `temp_C`, `temp_F` and `temp_K`. -/
theorem getWeather_success_body_counterexample :
    isValidCEP (lit "01310100") = true ∧
    (getLocationFromCEP
      (sampleWorld (lit "test_key") (lit "[\x7b\"lat\":\"-23.5\",\"lon\":\"-46.5\"\x7d]") 200
        (lit "\x7b\"current\":\x7b\"temp_c\":1e308\x7d\x7d"))
      (lit "01310100")).1 = (lit "São Paulo,SP", none) ∧
    (getTemperatureFromCoordinates
      (sampleWorld (lit "test_key") (lit "[\x7b\"lat\":\"-23.5\",\"lon\":\"-46.5\"\x7d]") 200
        (lit "\x7b\"current\":\x7b\"temp_c\":1e308\x7d\x7d"))
      sampleLat sampleLon (lit "São Paulo,SP")).1 = (F64.ofNat (10 ^ 308), none) ∧
    (F64.ofNat (10 ^ 308)).isFinite = true ∧
    celsiusToFahrenheit (F64.ofNat (10 ^ 308)) = F64.inf false ∧
    responses
      (getWeather
        (sampleWorld (lit "test_key") (lit "[\x7b\"lat\":\"-23.5\",\"lon\":\"-46.5\"\x7d]") 200
          (lit "\x7b\"current\":\x7b\"temp_c\":1e308\x7d\x7d"))
        (lit "01310100")) = [(200, Body.empty)] := by
  refine ⟨by decide, by decide, by decide, by decide, by decide, by decide⟩

/-- C7: for every `float64` value `c`, NaN and the infinities included,
`celsiusToFahrenheit c` is `c*1.8 + 32` and `celsiusToKelvin c` is
`c + 273`, where `1.8` is the `float64` nearest to 9/5 and the offset is
the integer 273, not 273.15; and under the `==` of Go
`celsiusToFahrenheit` maps 0, 100, -40, 25 to 32, 212, -40, 77 and
`celsiusToKelvin` maps them to 273, 373, 233, 298, each result being
that integer exactly. -/
theorem conversions_values (c : F64) :
    celsiusToFahrenheit c = F64.add (F64.mul c (F64.ofRat 18 10)) (F64.ofNat 32) ∧
    celsiusToKelvin c = F64.add c (F64.ofNat 273) ∧
    (F64.ofRat 18 10 = F64.fin false 8106479329266893 (-52) ∧
      ((8106479329266893 * 5 - 9 * 2 ^ 52 : Int).natAbs * 2 ≤ 5)) ∧
    ((F64.ofNat 32).toInt? = some 32 ∧ (F64.ofNat 273).toInt? = some 273 ∧
      F64.ofNat 273 ≠ F64.ofRat 27315 100) ∧
    (F64.eq (celsiusToFahrenheit (F64.ofInt 0)) (F64.ofInt 32) = true ∧
      F64.eq (celsiusToFahrenheit (F64.ofInt 100)) (F64.ofInt 212) = true ∧
      F64.eq (celsiusToFahrenheit (F64.ofInt (-40))) (F64.ofInt (-40)) = true ∧
      F64.eq (celsiusToFahrenheit (F64.ofInt 25)) (F64.ofInt 77) = true) ∧
    (F64.eq (celsiusToKelvin (F64.ofInt 0)) (F64.ofInt 273) = true ∧
      F64.eq (celsiusToKelvin (F64.ofInt 100)) (F64.ofInt 373) = true ∧
      F64.eq (celsiusToKelvin (F64.ofInt (-40))) (F64.ofInt 233) = true ∧
      F64.eq (celsiusToKelvin (F64.ofInt 25)) (F64.ofInt 298) = true) ∧
    ((celsiusToFahrenheit (F64.ofInt 0)).toInt? = some 32 ∧
      (celsiusToFahrenheit (F64.ofInt 100)).toInt? = some 212 ∧
      (celsiusToFahrenheit (F64.ofInt (-40))).toInt? = some (-40) ∧
      (celsiusToFahrenheit (F64.ofInt 25)).toInt? = some 77) ∧
    ((celsiusToKelvin (F64.ofInt 0)).toInt? = some 273 ∧
      (celsiusToKelvin (F64.ofInt 100)).toInt? = some 373 ∧
      (celsiusToKelvin (F64.ofInt (-40))).toInt? = some 233 ∧
      (celsiusToKelvin (F64.ofInt 25)).toInt? = some 298) := by
  refine ⟨rfl, rfl, ⟨by decide, by decide⟩, ⟨by decide, by decide, by decide⟩,
    ⟨by decide, by decide, by decide, by decide⟩, ⟨by decide, by decide, by decide, by decide⟩,
    ⟨by decide, by decide, by decide, by decide⟩, ⟨by decide, by decide, by decide, by decide⟩⟩

/-- C8: two `cep` strings with the same subsequence of ASCII digits get
the same answer of `isValidCEP`, make `getLocationFromCEP` request the
same URL `https://viacep.com.br/ws/<digits>/json/` and return the same
result, and, in one and the same world, make the handler write the same
status and body; when they are valid the events of the two requests differ
only in the argument recorded for the call of the resolver. Whenever
`isValidCEP` accepts, the code in the URL is exactly 8 ASCII digits. -/
theorem same_digits_same_outcome (w : World) (a b : GoString)
    (h : a.filter isDigit = b.filter isDigit) :
    isValidCEP a = isValidCEP b ∧
    ((getLocationFromCEP w a).2 =
        [Event.httpGet (lit "https://viacep.com.br/ws/" ++ a.filter isDigit ++ lit "/json/")] ∧
      (getLocationFromCEP w b).2 =
        [Event.httpGet (lit "https://viacep.com.br/ws/" ++ a.filter isDigit ++ lit "/json/")]) ∧
    getLocationFromCEP w a = getLocationFromCEP w b ∧
    responses (getWeather w a) = responses (getWeather w b) ∧
    (isValidCEP a = true →
      ∃ t, getWeather w a = Event.getLocationFromCEP a :: t ∧
        getWeather w b = Event.getLocationFromCEP b :: t) ∧
    (isValidCEP a = true →
      (a.filter isDigit).length = 8 ∧ ∀ x ∈ a.filter isDigit, isDigit x = true) := by
  have hvab : isValidCEP a = isValidCEP b := by rw [isValidCEP_eq, isValidCEP_eq, h]
  have hloc := getLocationFromCEP_congr w a b h
  refine ⟨hvab, ⟨getLocationFromCEP_events w a, ?_⟩, hloc, ?_, ?_, ?_⟩
  · rw [getLocationFromCEP_events, h]
  · cases hv : isValidCEP a with
    | false =>
      rw [getWeather_of_invalid w a hv, getWeather_of_invalid w b (hvab ▸ hv)]
    | true =>
      have hvb : isValidCEP b = true := hvab ▸ hv
      rw [getWeather_of_valid w a hv, getWeather_of_valid w b hvb,
        getWeather_tail_congr w a b hv hvb hloc]
      rfl
  · intro hv
    have hvb : isValidCEP b = true := hvab ▸ hv
    refine ⟨(getWeather w a).tail, getWeather_of_valid w a hv, ?_⟩
    rw [getWeather_tail_congr w a b hv hvb hloc]
    exact getWeather_of_valid w b hvb
  · intro hv
    rw [isValidCEP_eq] at hv
    refine ⟨by simpa using hv, ?_⟩
    intro x hx
    exact (List.mem_filter.mp hx).2

/-- C8 at the paths `/01310-100` and `/01310 100`. -/
theorem same_digits_same_outcome_witness :
    (lit "01310-100").filter isDigit = (lit "01310 100").filter isDigit ∧
    (getLocationFromCEP
      (sampleWorld (lit "test_key") (lit "[]") 200
        (lit "\x7b\"current\":\x7b\"temp_c\":25\x7d\x7d"))
      (lit "01310 100")).2 = [Event.httpGet (lit "https://viacep.com.br/ws/01310100/json/")] ∧
    responses
      (getWeather
        (sampleWorld (lit "test_key") (lit "[]") 200
          (lit "\x7b\"current\":\x7b\"temp_c\":25\x7d\x7d"))
        (lit "01310-100")) =
    responses
      (getWeather
        (sampleWorld (lit "test_key") (lit "[]") 200
          (lit "\x7b\"current\":\x7b\"temp_c\":25\x7d\x7d"))
        (lit "01310 100")) :=
  ⟨by decide,
    (same_digits_same_outcome _ (lit "01310-100") (lit "01310 100") (by decide)).2.1.2,
    (same_digits_same_outcome _ (lit "01310-100") (lit "01310 100") (by decide)).2.2.2.1⟩

/-- C9: `getCoordinates` returns an error, always with latitude 0 and
longitude 0, when the request fails, when the body cannot be read, when
`json.Unmarshal` fails, when the list of candidates is empty, when the
latitude of the first candidate does not parse, and when its latitude
parses but its longitude does not; otherwise it returns the two numbers
parsed from the first candidate. The handler does not look at that
error: once the location is resolved it calls
`getTemperatureFromCoordinates` with the coordinates `getCoordinates`
returned, which are (0, 0) after an error, and the response is the 500
or the 200 that the result of that call selects. -/
theorem getCoordinates_failure_not_surfaced (w : World) (location : GoString) :
    (∀ e, (getCoordinates w location).1.2.2 = some e →
      (getCoordinates w location).1.1 = F64.ofNat 0 ∧
      (getCoordinates w location).1.2.1 = F64.ofNat 0) ∧
    (∀ e, w.httpGet (lit "https://nominatim.openstreetmap.org/search?q=" ++
        QueryEscape location ++ lit ",Brazil&format=json&limit=1") = .error e →
      (getCoordinates w location).1 = (F64.ofNat 0, F64.ofNat 0, some e)) ∧
    (∀ resp, w.httpGet (lit "https://nominatim.openstreetmap.org/search?q=" ++
        QueryEscape location ++ lit ",Brazil&format=json&limit=1") = .ok resp →
      (∀ e, resp.Body = .error e →
        (getCoordinates w location).1 = (F64.ofNat 0, F64.ofNat 0, some e)) ∧
      (∀ body, resp.Body = .ok body →
        (∀ e, Unmarshal w body decodeNominatim [] = .error e →
          (getCoordinates w location).1 = (F64.ofNat 0, F64.ofNat 0, some e)) ∧
        (Unmarshal w body decodeNominatim [] = .ok [] →
          (getCoordinates w location).1 =
            (F64.ofNat 0, F64.ofNat 0, some (Errorf "coordenadas não encontradas"))) ∧
        (∀ first rest, Unmarshal w body decodeNominatim [] = .ok (first :: rest) →
          (∀ e, w.ParseFloat first.Lat = .error e →
            (getCoordinates w location).1 = (F64.ofNat 0, F64.ofNat 0, some e)) ∧
          (∀ lat, w.ParseFloat first.Lat = .ok lat →
            (∀ e, w.ParseFloat first.Lon = .error e →
              (getCoordinates w location).1 = (F64.ofNat 0, F64.ofNat 0, some e)) ∧
            (∀ lon, w.ParseFloat first.Lon = .ok lon →
              (getCoordinates w location).1 = (lat, lon, none)))))) ∧
    (∀ cep, isValidCEP cep = true → (getLocationFromCEP w cep).1 = (location, none) →
      getWeather w cep =
        [Event.getLocationFromCEP cep,
         Event.httpGet (lit "https://viacep.com.br/ws/" ++ cep.filter isDigit ++ lit "/json/"),
         Event.getCoordinates location,
         Event.httpGet (lit "https://nominatim.openstreetmap.org/search?q=" ++
           QueryEscape location ++ lit ",Brazil&format=json&limit=1"),
         Event.getTemperatureFromCoordinates (getCoordinates w location).1.1
           (getCoordinates w location).1.2.1 location] ++
        (getTemperatureFromCoordinates w (getCoordinates w location).1.1
          (getCoordinates w location).1.2.1 location).2 ++
        [match (getTemperatureFromCoordinates w (getCoordinates w location).1.1
            (getCoordinates w location).1.2.1 location).1 with
          | (_, some err) =>
            Event.JSON 500
              (Body.H [(lit "error", lit "error getting temperature, " ++ err.Error)])
          | (c, none) =>
            Context.JSON 200 (Body.temperature
              { TempC := c, TempF := celsiusToFahrenheit c, TempK := celsiusToKelvin c })]) := by
  refine ⟨getCoordinates_error_zero w location, ?_, ?_, ?_⟩
  · intro e hg
    simp only [getCoordinates, hg]
  · intro resp hg
    refine ⟨?_, ?_⟩
    · intro e hb
      simp only [getCoordinates, hg, hb]
    · intro body hb
      refine ⟨?_, ?_, ?_⟩
      · intro e hu
        simp only [getCoordinates, hg, hb, hu]
      · intro hu
        simp only [getCoordinates, hg, hb, hu]
      · intro first rest hu
        refine ⟨?_, ?_⟩
        · intro e hlat
          simp only [getCoordinates, hg, hb, hu, hlat]
        · intro lat hlat
          refine ⟨?_, ?_⟩
          · intro e hlon
            simp only [getCoordinates, hg, hb, hu, hlat, hlon]
          · intro lon hlon
            simp only [getCoordinates, hg, hb, hu, hlat, hlon]
  · intro cep hv h1
    exact getWeather_of_location_ok w cep location hv h1

/-- C9 at the path `/01310100`, the geocoder answering a candidate whose
latitude parses and whose longitude does not: the weather fetcher is
called with (0, 0) and its 25 degrees are answered with the status 200. -/
theorem getCoordinates_failure_not_surfaced_witness :
    (getCoordinates
      (sampleWorld (lit "test_key") (lit "[\x7b\"lat\":\"-23.5\",\"lon\":\"west\"\x7d]") 200
        (lit "\x7b\"current\":\x7b\"temp_c\":25\x7d\x7d"))
      (lit "São Paulo,SP")).1 = (F64.ofNat 0, F64.ofNat 0, some ⟨lit "invalid syntax"⟩) ∧
    getWeather
      (sampleWorld (lit "test_key") (lit "[\x7b\"lat\":\"-23.5\",\"lon\":\"west\"\x7d]") 200
        (lit "\x7b\"current\":\x7b\"temp_c\":25\x7d\x7d"))
      (lit "01310100") =
      [Event.getLocationFromCEP (lit "01310100"),
       Event.httpGet (lit "https://viacep.com.br/ws/01310100/json/"),
       Event.getCoordinates (lit "São Paulo,SP"),
       Event.httpGet (lit ("https://nominatim.openstreetmap.org/search?q=S%C3%A3o+Paulo%2CSP" ++
         ",Brazil&format=json&limit=1")),
       Event.getTemperatureFromCoordinates (F64.ofNat 0) (F64.ofNat 0) (lit "São Paulo,SP"),
       Event.httpGet (lit ("https://api.weatherapi.com/v1/current.json?key=test_key" ++
         "&q=0.000000,0.000000&aqi=no")),
       Event.JSON 200 (Body.temperature
         { TempC := F64.ofInt 25, TempF := F64.ofInt 77, TempK := F64.ofInt 298 })] :=
  ⟨by decide,
    ((getCoordinates_failure_not_surfaced
        (sampleWorld (lit "test_key") (lit "[\x7b\"lat\":\"-23.5\",\"lon\":\"west\"\x7d]") 200
          (lit "\x7b\"current\":\x7b\"temp_c\":25\x7d\x7d"))
        (lit "São Paulo,SP")).2.2.2 (lit "01310100") (by decide) (by decide)).trans
      (by decide)⟩

end CepWeather
